import Mathlib

/-!
Verification development for the BESS Modbus server (src/server.py).

The Python source is shallowly embedded: Python ints become `Int`,
`x >> 16` on an int becomes floor division by 65536 (`Int.fdiv`),
`x & 0xFFFF` becomes `Int.emod x 65536` (Python `&` with a positive mask
agrees with the floor/Euclidean remainder for every int), the pymodbus
sparse datastore becomes a map `Nat → Option Int`, and the updater
coroutine body becomes a state-passing function over the datastore plus
the two module-level globals `soc_value` and `watchdog_timeout`.
-/

namespace BessServer

/-- Embedding of `split_int32_be` (src/server.py lines 23-27):
`hi = (value >> 16) & 0xFFFF`, `lo = value & 0xFFFF`, returned as `[hi, lo]`.
Python right shift is floor division; `& 0xFFFF` is remainder mod 65536. -/
def split_int32_be (value : Int) : List Int :=
  [Int.fdiv value 65536 % 65536, value % 65536]

/-- Embedding of `merge_int32_be` (src/server.py lines 29-35):
`result = (hi << 16) + lo`, then subtract `0x100000000` when
`result > 0x7FFFFFFF` to reinterpret as signed 32-bit. -/
def merge_int32_be (hi lo : Int) : Int :=
  let result := hi * 65536 + lo
  if result > 0x7FFFFFFF then result - 0x100000000 else result

/-- Helper: the decode-after-encode round trip on signed 32-bit values. -/
lemma merge_split (v : Int) (hlow : -(2 ^ 31) ≤ v) (hhigh : v ≤ 2 ^ 31 - 1) :
    merge_int32_be ((split_int32_be v).getD 0 0) ((split_int32_be v).getD 1 0) = v := by
  simp only [split_int32_be, merge_int32_be, List.getD_cons_zero, List.getD_cons_succ]
  rw [Int.fdiv_eq_ediv _ (by norm_num)]
  split <;> omega

/-- Helper: encode-after-decode reproduces any pair of 16-bit words. -/
lemma split_merge (hi lo : Int) (hhi : 0 ≤ hi ∧ hi < 65536) (hlo : 0 ≤ lo ∧ lo < 65536) :
    split_int32_be (merge_int32_be hi lo) = [hi, lo] := by
  simp only [split_int32_be, merge_int32_be]
  rw [Int.fdiv_eq_ediv _ (by norm_num)]
  rw [List.cons.injEq, List.cons.injEq]
  refine ⟨?_, ?_, rfl⟩ <;> split <;> omega

/-- A sparse Modbus data block: a partial map from register address to the stored
integer, embedding the Python dict held by a pymodbus `ModbusSparseDataBlock`.
Modelled from the spec: the `ModbusSparseDataBlock` class itself belongs to the
pymodbus library, not to this repository; spec section 4.3 describes the datastore
as a sparse map in which only declared addresses are valid. -/
def SparseBlock : Type := Nat → Option Int

instance : Inhabited SparseBlock := ⟨fun _ => none⟩

/-- Point update of one address, embedding the dict assignment performed by the
datastore for a single register. -/
def SparseBlock.set1 (b : SparseBlock) (addr : Nat) (v : Int) : SparseBlock :=
  fun a => if a = addr then some v else b a

/-- Store a list of values at consecutive addresses starting at `addr`, embedding
`setValues(fc, addr, values)` on one block. -/
def SparseBlock.setRun (b : SparseBlock) (addr : Nat) (vals : List Int) : SparseBlock :=
  match vals with
  | [] => b
  | v :: rest => (b.set1 addr v).setRun (addr + 1) rest

/-- Address validation for a sparse block. Modelled from the spec (section 4.3 and
section 6): only declared addresses are valid; a request touching any undeclared
address is rejected with a Modbus illegal-data-address exception before any
read or write happens. -/
def SparseBlock.validate (b : SparseBlock) (addr count : Nat) : Bool :=
  (List.range count).all (fun i => (b (addr + i)).isSome)

/-- The initial register dict of `BessDataBlock.__init__` (src/server.py lines
43-65), in source order: ten holding-style addresses 0xd000-0xd00b (0xd008 and
0xd009 absent) and eight input-style addresses 0x2502-0x2505, 0x2518-0x251b,
with 0x2504 initialised to 5000 and every other address to 0. -/
def bessInitList : List (Nat × Int) :=
  [(0xd000, 0), (0xd001, 0), (0xd002, 0), (0xd003, 0),
   (0xd004, 0), (0xd005, 0), (0xd006, 0), (0xd007, 0),
   (0xd00a, 0), (0xd00b, 0),
   (0x2502, 0), (0x2503, 0), (0x2504, 5000), (0x2505, 0),
   (0x2518, 0), (0x2519, 0), (0x251a, 0), (0x251b, 0)]

/-- The sparse block a fresh `BessDataBlock()` holds: lookup in the initial dict. -/
def bessBlock : SparseBlock :=
  fun a => (bessInitList.find? (fun p => p.1 == a)).map (fun p => p.2)

/-- The declared addresses of a `BessDataBlock`. -/
def bessAddrs : List Nat := bessInitList.map (fun p => p.1)

/-- The four banks of the `ModbusSlaveContext` built at src/server.py lines 73-79:
coils, discrete inputs, holding registers, input registers, each its own
`BessDataBlock` instance, with `zero_mode=True` (no address offset). -/
structure ModbusSlaveContext where
  co : SparseBlock
  di : SparseBlock
  hr : SparseBlock
  ir : SparseBlock

/-- The context as built at startup: four independent `BessDataBlock()` instances,
all with the same initial dict. -/
def initContext : ModbusSlaveContext :=
  { co := bessBlock, di := bessBlock, hr := bessBlock, ir := bessBlock }

/-- Function-code dispatch to a bank: 1 coils, 2 discrete inputs, 3 holding,
4 input, matching the pymodbus function-code decoding used by
`context[0].getValues`/`setValues` in the updater. -/
def ModbusSlaveContext.block (s : ModbusSlaveContext) (fc : Nat) : SparseBlock :=
  match fc with
  | 1 => s.co
  | 2 => s.di
  | 3 => s.hr
  | 4 => s.ir
  | _ => fun _ => none

/-- Embedding of `context[0].getValues(fc, addr, count=1)[0]` as used inside the
updater: a single-register read that fails (Python `KeyError`) when the address
is not declared. -/
def ModbusSlaveContext.read1 (s : ModbusSlaveContext) (fc addr : Nat) : Option Int :=
  s.block fc addr

/-- Embedding of `context[0].setValues(fc, addr, values)`: write the values at
consecutive addresses of the bank selected by the function code. -/
def ModbusSlaveContext.setValues (s : ModbusSlaveContext) (fc addr : Nat)
    (vals : List Int) : ModbusSlaveContext :=
  match fc with
  | 1 => { s with co := s.co.setRun addr vals }
  | 2 => { s with di := s.di.setRun addr vals }
  | 3 => { s with hr := s.hr.setRun addr vals }
  | 4 => { s with ir := s.ir.setRun addr vals }
  | _ => s

/-- Modbus exception surfaced to a client. -/
inductive ModbusExc where
  | illegalDataAddress
deriving DecidableEq, Repr

/-- A client-issued read request against one bank. Modelled from the spec
(sections 4.3, 6, 7): the protocol layer validates every touched address
against the declared set and answers an illegal-data-address exception when
any is undeclared, never a default value. -/
def clientRead (s : ModbusSlaveContext) (fc addr count : Nat) :
    Except ModbusExc (List Int) :=
  if (s.block fc).validate addr count then
    .ok ((List.range count).map (fun i => (s.block fc (addr + i)).getD 0))
  else .error .illegalDataAddress

/-- A client-issued write request against one bank, validated the same way. -/
def clientWrite (s : ModbusSlaveContext) (fc addr : Nat) (vals : List Int) :
    Except ModbusExc ModbusSlaveContext :=
  if (s.block fc).validate addr vals.length then .ok (s.setValues fc addr vals)
  else .error .illegalDataAddress

/-- State carried across updater iterations: the datastore context plus the two
module-level globals `soc_value` and `watchdog_timeout`
(src/server.py lines 97-98). -/
structure SimState where
  ctx : ModbusSlaveContext
  soc_value : Int
  watchdog_timeout : Nat

/-- The process state right after startup: fresh context, `soc_value = 5000`,
`watchdog_timeout = 0`. -/
def initSimState : SimState :=
  { ctx := initContext, soc_value := 5000, watchdog_timeout := 0 }

/-- Embedding of `-1 if (time.time() % 60) < 30 else 1` (src/server.py line 145);
`tmod60` stands for the wall-clock value `time.time() % 60`. -/
def soc_direction (tmod60 : ℚ) : Int :=
  if tmod60 < 30 then -1 else 1

/-- One iteration of the `try` body of the updater loop (src/server.py lines
108-148): mirror system command, P command and Q command from the holding bank
into the input bank, update the watchdog timeout counter, and step the simulated
state of charge. Returns the new state and whether a watchdog-timeout warning
was logged this tick; `none` embeds a Python exception raised by a read of an
undeclared address. -/
def tick (tmod60 : ℚ) (s : SimState) : Option (SimState × Bool) := do
  let cmd_lo ← s.ctx.read1 3 0xd002
  let cmd_hi ← s.ctx.read1 3 0xd003
  let cmd_32 := merge_int32_be cmd_lo cmd_hi
  let c1 := s.ctx.setValues 4 0x2502 (split_int32_be cmd_32)
  let p_cmd_lo ← c1.read1 3 0xd004
  let p_cmd_hi ← c1.read1 3 0xd005
  let p_cmd_32 := merge_int32_be p_cmd_lo p_cmd_hi
  let c2 := c1.setValues 4 0x2518 (split_int32_be p_cmd_32)
  let q_cmd_lo ← c2.read1 3 0xd006
  let q_cmd_hi ← c2.read1 3 0xd007
  let q_cmd_32 := merge_int32_be q_cmd_lo q_cmd_hi
  let c3 := c2.setValues 4 0x251a (split_int32_be q_cmd_32)
  let wd_lo ← c3.read1 3 0xd000
  let wd_hi ← c3.read1 3 0xd001
  let watchdog_32 := merge_int32_be wd_lo wd_hi
  let wdNext : Nat × Bool :=
    if watchdog_32 ≠ 0 then (0, false)
    else (s.watchdog_timeout + 1, decide (s.watchdog_timeout + 1 > 10))
  let soc1 := s.soc_value + soc_direction tmod60
  let soc2 := max 1000 (min 9500 soc1)
  let c4 := c3.setValues 4 0x2504 (split_int32_be soc2)
  some ({ ctx := c4, soc_value := soc2, watchdog_timeout := wdNext.1 }, wdNext.2)

example :
    (tick 0 initSimState).map (fun r => (r.1.ctx.ir 0x2504, r.1.ctx.ir 0x2505, r.1.soc_value, r.1.watchdog_timeout, r.2)) =
      some (some 0, some 4999, 4999, 1, false) := by decide

lemma set1_apply (b : SparseBlock) (addr : Nat) (v : Int) (a : Nat) :
    b.set1 addr v a = if a = addr then some v else b a := rfl

lemma read1_hr (s : ModbusSlaveContext) (a : Nat) : s.read1 3 a = s.hr a := rfl

lemma setValues4_hr (s : ModbusSlaveContext) (a : Nat) (vs : List Int) :
    (s.setValues 4 a vs).hr = s.hr := rfl

lemma setValues4_co (s : ModbusSlaveContext) (a : Nat) (vs : List Int) :
    (s.setValues 4 a vs).co = s.co := rfl

lemma setValues4_di (s : ModbusSlaveContext) (a : Nat) (vs : List Int) :
    (s.setValues 4 a vs).di = s.di := rfl

lemma setValues4_ir (s : ModbusSlaveContext) (a : Nat) (vs : List Int) :
    (s.setValues 4 a vs).ir = s.ir.setRun a vs := rfl

/-- C1. For every tick of the synchronization loop, immediately after the tick
completes (no interleaved client write), the input-register pair 0x2502,0x2503
holds exactly the two words of the holding pair 0xd002,0xd003, the pair
0x2518,0x2519 holds exactly the words of 0xd004,0xd005, and 0x251a,0x251b holds
exactly the words of 0xd006,0xd007 — a pure word-for-word mirror, the holding
bank itself being left untouched. -/
theorem C1_tick_mirrors_commands (s : SimState) (t : ℚ) (cl ch pl ph ql qh wl wh : Int)
    (h000 : s.ctx.hr 0xd000 = some wl) (h001 : s.ctx.hr 0xd001 = some wh)
    (h002 : s.ctx.hr 0xd002 = some cl) (h003 : s.ctx.hr 0xd003 = some ch)
    (h004 : s.ctx.hr 0xd004 = some pl) (h005 : s.ctx.hr 0xd005 = some ph)
    (h006 : s.ctx.hr 0xd006 = some ql) (h007 : s.ctx.hr 0xd007 = some qh)
    (r02 : 0 ≤ cl ∧ cl < 65536) (r03 : 0 ≤ ch ∧ ch < 65536)
    (r04 : 0 ≤ pl ∧ pl < 65536) (r05 : 0 ≤ ph ∧ ph < 65536)
    (r06 : 0 ≤ ql ∧ ql < 65536) (r07 : 0 ≤ qh ∧ qh < 65536) :
    ∃ s' warned, tick t s = some (s', warned) ∧
      s'.ctx.ir 0x2502 = s.ctx.hr 0xd002 ∧ s'.ctx.ir 0x2503 = s.ctx.hr 0xd003 ∧
      s'.ctx.ir 0x2518 = s.ctx.hr 0xd004 ∧ s'.ctx.ir 0x2519 = s.ctx.hr 0xd005 ∧
      s'.ctx.ir 0x251a = s.ctx.hr 0xd006 ∧ s'.ctx.ir 0x251b = s.ctx.hr 0xd007 ∧
      s'.ctx.hr = s.ctx.hr := by
  simp only [tick, read1_hr, setValues4_hr, h000, h001, h002, h003, h004, h005,
    h006, h007, Option.bind_eq_bind, Option.some_bind]
  rw [split_merge cl ch r02 r03, split_merge pl ph r04 r05, split_merge ql qh r06 r07]
  refine ⟨_, _, rfl, ?_, ?_, ?_, ?_, ?_, ?_, rfl⟩ <;>
    simp [setValues4_ir, SparseBlock.setRun, set1_apply, split_int32_be,
      h002, h003, h004, h005, h006, h007]

/-- C1 witness: the theorem applied to the startup state at wall-clock phase 0. -/
theorem C1_tick_mirrors_commands_witness :
    ∃ s' warned, tick 0 initSimState = some (s', warned) ∧
      s'.ctx.ir 0x2502 = initSimState.ctx.hr 0xd002 ∧
      s'.ctx.ir 0x2503 = initSimState.ctx.hr 0xd003 ∧
      s'.ctx.ir 0x2518 = initSimState.ctx.hr 0xd004 ∧
      s'.ctx.ir 0x2519 = initSimState.ctx.hr 0xd005 ∧
      s'.ctx.ir 0x251a = initSimState.ctx.hr 0xd006 ∧
      s'.ctx.ir 0x251b = initSimState.ctx.hr 0xd007 ∧
      s'.ctx.hr = initSimState.ctx.hr :=
  C1_tick_mirrors_commands initSimState 0 0 0 0 0 0 0 0 0
    rfl rfl rfl rfl rfl rfl rfl rfl
    (by decide) (by decide) (by decide) (by decide) (by decide) (by decide)

/-- C3. Whatever the number of elapsed ticks and whatever the wall-clock phase,
the state-of-charge value a completed tick writes into the soc register lies in
the closed range 1000 to 9500, and the register pair 0x2504,0x2505 holds its
encoding. -/
theorem C3_soc_clamped (t : ℚ) (s s' : SimState) (w : Bool)
    (h : tick t s = some (s', w)) :
    1000 ≤ s'.soc_value ∧ s'.soc_value ≤ 9500 ∧
      s'.ctx.ir 0x2504 = some ((split_int32_be s'.soc_value).getD 0 0) ∧
      s'.ctx.ir 0x2505 = some ((split_int32_be s'.soc_value).getD 1 0) := by
  simp only [tick, Option.bind_eq_bind, Option.bind_eq_some] at h
  obtain ⟨cl, h002, ch, h003, pl, h004, ph, h005, ql, h006, qh, h007, wl, h000, wh, h001, hfin⟩ := h
  obtain ⟨hs, hw⟩ := Prod.mk.injEq .. ▸ Option.some.injEq .. ▸ hfin
  subst hw
  have hsoc : s'.soc_value = max 1000 (min 9500 (s.soc_value + soc_direction t)) := by
    rw [← hs]
  refine ⟨by rw [hsoc]; omega, by rw [hsoc]; omega, ?_, ?_⟩ <;>
    · rw [← hs]
      simp [setValues4_ir, SparseBlock.setRun, set1_apply, split_int32_be]

/-- C3 witness: the theorem applied to the tick that runs first after startup. -/
theorem C3_soc_clamped_witness :
    ∃ s' w, tick 0 initSimState = some (s', w) ∧
      1000 ≤ s'.soc_value ∧ s'.soc_value ≤ 9500 := by
  obtain ⟨⟨s', w⟩, h⟩ : ∃ r, tick 0 initSimState = some r := ⟨_, rfl⟩
  obtain ⟨h1, h2, _⟩ := C3_soc_clamped 0 initSimState s' w h
  exact ⟨s', w, h, h1, h2⟩

/-- C2. For every signed 32-bit integer v, decoding the pair produced by encoding
round-trips: `merge_int32_be` applied to the hi and lo words returned by
`split_int32_be v` gives back v. -/
theorem C2_decode_encode_roundtrip (v : Int)
    (hlow : -(2 ^ 31) ≤ v) (hhigh : v ≤ 2 ^ 31 - 1) :
    merge_int32_be ((split_int32_be v).getD 0 0) ((split_int32_be v).getD 1 0) = v :=
  merge_split v hlow hhigh

/-- C2 witness: the round trip at the four singled-out values -1, INT32_MIN,
INT32_MAX and 0. -/
theorem C2_decode_encode_roundtrip_witness :
    merge_int32_be ((split_int32_be (-1)).getD 0 0) ((split_int32_be (-1)).getD 1 0) = -1 ∧
    merge_int32_be ((split_int32_be (-(2 ^ 31))).getD 0 0) ((split_int32_be (-(2 ^ 31))).getD 1 0) = -(2 ^ 31) ∧
    merge_int32_be ((split_int32_be (2 ^ 31 - 1)).getD 0 0) ((split_int32_be (2 ^ 31 - 1)).getD 1 0) = 2 ^ 31 - 1 ∧
    merge_int32_be ((split_int32_be 0).getD 0 0) ((split_int32_be 0).getD 1 0) = 0 :=
  ⟨C2_decode_encode_roundtrip (-1) (by decide) (by decide),
   C2_decode_encode_roundtrip (-(2 ^ 31)) (by decide) (by decide),
   C2_decode_encode_roundtrip (2 ^ 31 - 1) (by decide) (by decide),
   C2_decode_encode_roundtrip 0 (by decide) (by decide)⟩

/-- C9. For every pair of 16-bit words, encoding the decoded value reproduces the
original words: `split_int32_be (merge_int32_be hi lo) = [hi, lo]`. -/
theorem C9_encode_decode_words (hi lo : Int)
    (hhi : 0 ≤ hi ∧ hi ≤ 0xFFFF) (hlo : 0 ≤ lo ∧ lo ≤ 0xFFFF) :
    split_int32_be (merge_int32_be hi lo) = [hi, lo] :=
  split_merge hi lo ⟨hhi.1, by omega⟩ ⟨hlo.1, by omega⟩

/-- C9 witness: the word-level round trip at the pair (0xFFFF, 0x1234). -/
theorem C9_encode_decode_words_witness :
    split_int32_be (merge_int32_be 0xFFFF 0x1234) = [0xFFFF, 0x1234] :=
  C9_encode_decode_words 0xFFFF 0x1234 (by decide) (by decide)

/-- C5. Evaluation of the startup register file: every command and state pair
decodes to 0, but the state-of-charge pair 0x2504,0x2505 — decoded with the high
word at the lower address, the convention used by every write the updater
performs — decodes to 327680000 = 5000 * 2^16, not to the 5000 (50.00%) that the
init comments in src/server.py lines 59-60 announce. The dict places 5000 at the
lower address 0x2504 while the updater's own writes place the high word there,
so before the first tick a decoding client sees 327680000. -/
theorem C5_initial_soc_misencoded :
    merge_int32_be ((initContext.ir 0x2504).getD 0) ((initContext.ir 0x2505).getD 0) = 327680000 ∧
    (327680000 : Int) ≠ 5000 ∧
    merge_int32_be ((initContext.ir 0x2502).getD 0) ((initContext.ir 0x2503).getD 0) = 0 ∧
    merge_int32_be ((initContext.ir 0x2518).getD 0) ((initContext.ir 0x2519).getD 0) = 0 ∧
    merge_int32_be ((initContext.ir 0x251a).getD 0) ((initContext.ir 0x251b).getD 0) = 0 ∧
    merge_int32_be ((initContext.hr 0xd000).getD 0) ((initContext.hr 0xd001).getD 0) = 0 ∧
    merge_int32_be ((initContext.hr 0xd002).getD 0) ((initContext.hr 0xd003).getD 0) = 0 ∧
    merge_int32_be ((initContext.hr 0xd004).getD 0) ((initContext.hr 0xd005).getD 0) = 0 ∧
    merge_int32_be ((initContext.hr 0xd006).getD 0) ((initContext.hr 0xd007).getD 0) = 0 ∧
    merge_int32_be ((initContext.hr 0xd00a).getD 0) ((initContext.hr 0xd00b).getD 0) = 0 := by
  decide

lemma bessBlock_isSome_iff (a : Nat) : (bessBlock a).isSome ↔ a ∈ bessAddrs := by
  unfold bessBlock bessAddrs
  cases hf : bessInitList.find? (fun p => p.1 == a) with
  | none =>
      simp only [Option.map_none', Option.isSome_none, Bool.false_eq_true, false_iff]
      intro hmem
      obtain ⟨p, hp, he⟩ := List.mem_map.mp hmem
      have hnp := List.find?_eq_none.mp hf p hp
      simp [he] at hnp
  | some p =>
      simp only [Option.map_some', Option.isSome_some, true_iff]
      have h1 := List.find?_some hf
      have h2 := List.mem_of_find?_eq_some hf
      exact List.mem_map.mpr ⟨p, h2, by simpa using h1⟩

lemma bessBlock_eq_none (a : Nat) (h : a ∉ bessAddrs) : bessBlock a = none := by
  by_contra hne
  exact h ((bessBlock_isSome_iff a).mp (Option.ne_none_iff_isSome.mp hne))

/-- C6. In every bank, a client read or write of an address outside the declared
register table fails with the Modbus illegal-data-address error instead of
returning a default value, while every declared address is readable and
writable. -/
theorem C6_undeclared_address_rejected (fc a : Nat)
    (hfc : fc = 1 ∨ fc = 2 ∨ fc = 3 ∨ fc = 4) (h : a ∉ bessAddrs) :
    clientRead initContext fc a 1 = .error .illegalDataAddress ∧
    (∀ v : Int, clientWrite initContext fc a [v] = .error .illegalDataAddress) ∧
    (∀ b ∈ bessAddrs, (clientRead initContext fc b 1).isOk ∧
      ∀ v : Int, (clientWrite initContext fc b [v]).isOk) := by
  have hblock : initContext.block fc = bessBlock := by
    rcases hfc with h | h | h | h <;> subst h <;> rfl
  have hnone : bessBlock a = none := bessBlock_eq_none a h
  have hval : SparseBlock.validate (initContext.block fc) a 1 = false := by
    simp [SparseBlock.validate, hblock, hnone]
  refine ⟨?_, fun v => ?_, fun b hb => ?_⟩
  · simp [clientRead, hval]
  · simp [clientWrite, hval]
  · have hsome : (bessBlock b).isSome := (bessBlock_isSome_iff b).mpr hb
    have hvalb : SparseBlock.validate (initContext.block fc) b 1 = true := by
      simp [SparseBlock.validate, hblock, hsome]
    exact ⟨by simp [clientRead, hvalb, Except.isOk, Except.toBool],
      fun v => by simp [clientWrite, hvalb, Except.isOk, Except.toBool]⟩

/-- C6 witness: the undeclared address 0x0000 on the holding bank. -/
theorem C6_undeclared_address_rejected_witness :
    clientRead initContext 3 0 1 = .error .illegalDataAddress ∧
    (∀ v : Int, clientWrite initContext 3 0 [v] = .error .illegalDataAddress) ∧
    (∀ b ∈ bessAddrs, (clientRead initContext 3 b 1).isOk ∧
      ∀ v : Int, (clientWrite initContext 3 b [v]).isOk) :=
  C6_undeclared_address_rejected 3 0 (by decide) (by decide)

lemma tick_banks (t : ℚ) (s s' : SimState) (w : Bool) (h : tick t s = some (s', w)) :
    s'.ctx.hr = s.ctx.hr ∧ s'.ctx.co = s.ctx.co ∧ s'.ctx.di = s.ctx.di := by
  simp only [tick, Option.bind_eq_bind, Option.bind_eq_some] at h
  obtain ⟨cl, h002, ch, h003, pl, h004, ph, h005, ql, h006, qh, h007, wl, h000, wh, h001, hfin⟩ := h
  obtain ⟨hs, hw⟩ := Prod.mk.injEq .. ▸ Option.some.injEq .. ▸ hfin
  exact ⟨by rw [← hs]; rfl, by rw [← hs]; rfl, by rw [← hs]; rfl⟩

lemma tick_wd_counter (t : ℚ) (s s' : SimState) (w : Bool) (wl wh : Int)
    (h000 : s.ctx.hr 0xd000 = some wl) (h001 : s.ctx.hr 0xd001 = some wh)
    (h : tick t s = some (s', w)) :
    s'.watchdog_timeout = (if merge_int32_be wl wh ≠ 0 then 0 else s.watchdog_timeout + 1) ∧
    w = (decide (merge_int32_be wl wh = 0) && decide (s.watchdog_timeout + 1 > 10)) := by
  simp only [tick, read1_hr, setValues4_hr, h000, h001, Option.bind_eq_bind,
    Option.bind_eq_some, Option.some_bind] at h
  obtain ⟨cl, h002, ch, h003, pl, h004, ph, h005, ql, h006, qh, h007, hfin⟩ := h
  obtain ⟨hs, hw⟩ := Prod.mk.injEq .. ▸ Option.some.injEq .. ▸ hfin
  subst hw
  constructor
  · rw [← hs]
    split <;> simp
  · by_cases hz : merge_int32_be wl wh = 0 <;> simp [hz]

/-- Run the updater body once per element of `ts` (the successive wall-clock
phases), collecting the watchdog-warning flag of every tick. -/
def runTicks : List ℚ → SimState → Option (SimState × List Bool)
  | [], s => some (s, [])
  | t :: ts, s => do
      let (s', w) ← tick t s
      let (s'', ws) ← runTicks ts s'
      some (s'', w :: ws)

lemma runTicks_zero_wd (ts : List ℚ) (s s2 : SimState) (ws : List Bool) (wl wh : Int)
    (h000 : s.ctx.hr 0xd000 = some wl) (h001 : s.ctx.hr 0xd001 = some wh)
    (hz : merge_int32_be wl wh = 0)
    (h : runTicks ts s = some (s2, ws)) :
    ws = (List.range ts.length).map (fun n => decide (10 < s.watchdog_timeout + (n + 1))) := by
  induction ts generalizing s ws with
  | nil =>
      simp only [runTicks, Option.some.injEq, Prod.mk.injEq] at h
      simp [← h.2]
  | cons t ts ih =>
      simp only [runTicks, Option.bind_eq_bind, Option.bind_eq_some] at h
      obtain ⟨⟨s1, w⟩, htick, ⟨s3, ws'⟩, hrun, hfin⟩ := h
      obtain ⟨hs, hw⟩ := Prod.mk.injEq .. ▸ Option.some.injEq .. ▸ hfin
      subst hw
      subst hs
      have hrun' : runTicks ts s1 = some (s3, ws') := hrun
      have htick' : tick t s = some (s1, w) := htick
      have hb := tick_banks t s s1 w htick'
      have hwd := tick_wd_counter t s s1 w wl wh h000 h001 htick'
      have h000' : s1.ctx.hr 0xd000 = some wl := by rw [hb.1]; exact h000
      have h001' : s1.ctx.hr 0xd001 = some wh := by rw [hb.1]; exact h001
      have hwdt : s1.watchdog_timeout = s.watchdog_timeout + 1 := by
        rw [hwd.1]; simp [hz]
      have hws' := ih s1 ws' h000' h001' hrun'
      rw [List.length_cons, List.range_succ_eq_map, List.map_cons, List.map_map]
      congr 1
      · rw [hwd.2]; simp [hz]
      · rw [hws', hwdt]
        refine List.map_congr_left (fun a _ => ?_)
        simp only [Function.comp_apply]
        exact decide_eq_decide.mpr (by omega)

lemma tick_ctx_ignores_counter (t : ℚ) (s : SimState) (c : Nat)
    (s₁ s₂ : SimState) (w₁ w₂ : Bool)
    (h₁ : tick t s = some (s₁, w₁))
    (h₂ : tick t { ctx := s.ctx, soc_value := s.soc_value, watchdog_timeout := c } =
      some (s₂, w₂)) :
    s₁.ctx = s₂.ctx := by
  have h₁' := h₁
  simp only [tick, read1_hr, setValues4_hr, Option.bind_eq_bind, Option.bind_eq_some] at h₁
  obtain ⟨cl, h002, ch, h003, pl, h004, ph, h005, ql, h006, qh, h007, wl, h000, wh, h001, hfin⟩ := h₁
  simp only [tick, read1_hr, setValues4_hr, h000, h001, h002, h003, h004, h005, h006, h007,
    Option.bind_eq_bind, Option.some_bind, Option.some.injEq, Prod.mk.injEq] at h₁' h₂
  rw [← h₁'.1, ← h₂.1]

/-- C4. Each tick resets the internal timeout counter to 0 when the decoded
watchdog value (holding pair 0xd000,0xd001) is nonzero and increments it by 1
when it is zero; a warning is logged exactly when the incremented counter
exceeds the threshold 10, so every run of 11 or more consecutive zero-watchdog
ticks logs at least one warning; and the warning is advisory only — the
register banks produced by a tick do not depend on the counter. -/
theorem C4_watchdog_behavior (t : ℚ) (s : SimState) (wl wh : Int) (ts : List ℚ)
    (h000 : s.ctx.hr 0xd000 = some wl) (h001 : s.ctx.hr 0xd001 = some wh) :
    (∀ s' w, tick t s = some (s', w) →
      s'.watchdog_timeout = (if merge_int32_be wl wh ≠ 0 then 0 else s.watchdog_timeout + 1) ∧
      w = (decide (merge_int32_be wl wh = 0) && decide (s.watchdog_timeout + 1 > 10))) ∧
    (merge_int32_be wl wh = 0 → 11 ≤ ts.length →
      ∀ s2 ws, runTicks ts s = some (s2, ws) → true ∈ ws) ∧
    (∀ c s₁ w₁ s₂ w₂, tick t s = some (s₁, w₁) →
      tick t { ctx := s.ctx, soc_value := s.soc_value, watchdog_timeout := c } = some (s₂, w₂) →
      s₁.ctx = s₂.ctx) := by
  refine ⟨fun s' w h => tick_wd_counter t s s' w wl wh h000 h001 h, ?_,
    fun c s₁ w₁ s₂ w₂ h₁ h₂ => tick_ctx_ignores_counter t s c s₁ s₂ w₁ w₂ h₁ h₂⟩
  intro hz hlen s2 ws h
  rw [runTicks_zero_wd ts s s2 ws wl wh h000 h001 hz h]
  refine List.mem_map.mpr ⟨10, List.mem_range.mpr (by omega), ?_⟩
  exact decide_eq_true (by omega)

/-- C4 witness: the startup state with an all-zero watchdog, run for 11 ticks. -/
theorem C4_watchdog_behavior_witness :
    (∀ s' w, tick 0 initSimState = some (s', w) →
      s'.watchdog_timeout =
        (if merge_int32_be 0 0 ≠ 0 then 0 else initSimState.watchdog_timeout + 1) ∧
      w = (decide (merge_int32_be 0 0 = 0) && decide (initSimState.watchdog_timeout + 1 > 10))) ∧
    (merge_int32_be 0 0 = 0 → 11 ≤ (List.replicate 11 (0 : ℚ)).length →
      ∀ s2 ws, runTicks (List.replicate 11 (0 : ℚ)) initSimState = some (s2, ws) → true ∈ ws) ∧
    (∀ c s₁ w₁ s₂ w₂, tick 0 initSimState = some (s₁, w₁) →
      tick 0 { ctx := initSimState.ctx, soc_value := initSimState.soc_value, watchdog_timeout := c } = some (s₂, w₂) →
      s₁.ctx = s₂.ctx) :=
  C4_watchdog_behavior 0 initSimState 0 0 (List.replicate 11 0) (by decide) (by decide)

/-- Environment of one updater iteration. `normal t` is a tick at wall-clock
phase `t` whose body raises no exception; `raised mid` embeds a tick whose body
raised an exception at some point (for example a transient read or write
error), with `mid` the state the partial writes of that tick left behind — the
code guarantees nothing about it. The `except` clause at src/server.py lines
151-152 catches every exception of the body and logs it, and the
`await asyncio.sleep(1)` at line 154 runs on both paths. -/
inductive TickEnv where
  | normal (tmod60 : ℚ)
  | raised (mid : SimState)

/-- Observable bookkeeping of the updater loop: the simulation state plus how
many iterations started, how many full sleeps were taken, and how many tick
errors were logged. -/
structure LoopState where
  sim : SimState
  ticksRun : Nat
  sleeps : Nat
  errorsLogged : Nat

/-- One full `while True` iteration of `updater` (src/server.py lines 107-154):
run the body; when it raises, keep the partially updated state and log the
error; in every case take the full one-interval sleep and continue. -/
def updaterStep (e : TickEnv) (ls : LoopState) : LoopState :=
  match e with
  | .normal t =>
      match tick t ls.sim with
      | some (s', _) =>
          { sim := s', ticksRun := ls.ticksRun + 1, sleeps := ls.sleeps + 1,
            errorsLogged := ls.errorsLogged }
      | none =>
          { sim := ls.sim, ticksRun := ls.ticksRun + 1, sleeps := ls.sleeps + 1,
            errorsLogged := ls.errorsLogged + 1 }
  | .raised mid =>
      { sim := mid, ticksRun := ls.ticksRun + 1, sleeps := ls.sleeps + 1,
        errorsLogged := ls.errorsLogged + 1 }

/-- The updater loop over a finite schedule of iterations. -/
def runUpdater : List TickEnv → LoopState → LoopState
  | [], ls => ls
  | e :: es, ls => runUpdater es (updaterStep e ls)

lemma updaterStep_counts (e : TickEnv) (ls : LoopState) :
    (updaterStep e ls).ticksRun = ls.ticksRun + 1 ∧
    (updaterStep e ls).sleeps = ls.sleeps + 1 := by
  cases e with
  | normal t =>
      simp only [updaterStep]
      split <;> exact ⟨rfl, rfl⟩
  | raised mid => exact ⟨rfl, rfl⟩

/-- C7. A failed tick never terminates the synchronization loop: whatever mix of
clean and exception-raising ticks the schedule contains, every scheduled
iteration runs and is followed by the full sleep interval, and an
exception-raising iteration is logged, sleeps the full interval, and hands the
loop on to the next iteration. -/
theorem C7_tick_errors_never_kill_loop (es : List TickEnv) (ls : LoopState) :
    (runUpdater es ls).ticksRun = ls.ticksRun + es.length ∧
    (runUpdater es ls).sleeps = ls.sleeps + es.length ∧
    (∀ mid : SimState,
      (updaterStep (.raised mid) ls).errorsLogged = ls.errorsLogged + 1 ∧
      (updaterStep (.raised mid) ls).sleeps = ls.sleeps + 1 ∧
      (updaterStep (.raised mid) ls).ticksRun = ls.ticksRun + 1) := by
  refine ⟨?_, ?_, fun mid => ⟨rfl, rfl, rfl⟩⟩ <;>
  · induction es generalizing ls with
    | nil => simp [runUpdater]
    | cons e es ih =>
        have h := updaterStep_counts e ls
        rw [runUpdater, ih (updaterStep e ls), List.length_cons]
        omega

/-- A register word tagged with the identifier of the client write that produced
it (0 marks the initial value). The value component follows the code; the
origin component is proof bookkeeping for write provenance. -/
structure TaggedWord where
  val : Int
  origin : Nat
deriving DecidableEq, Repr

/-- The registers involved in the P mirror, each tagged with its provenance:
holding registers 0xd004, 0xd005 and input registers 0x2518, 0x2519. -/
structure PMirror where
  hr_d004 : TaggedWord
  hr_d005 : TaggedWord
  ir_2518 : TaggedWord
  ir_2519 : TaggedWord
deriving DecidableEq, Repr

/-- Atomic events of the concurrency model. The updater body contains no
`await` between its first read and its last write (its only await, the
`asyncio.sleep` at src/server.py line 154, sits after the whole body), and a
pymodbus request handler mutates the datastore synchronously inside one
event-loop callback; under asyncio's cooperative single-threaded scheduling,
coroutines interleave only at await points, so one whole tick and one whole
write-multiple-registers request are each a single atomic event. -/
inductive PEvent where
  | writeP (id : Nat) (w4 w5 : Int)
  | tickP

/-- Effect of one atomic event on the P registers. A client write (function
code 16 at address 0xd004, count 2) stores both words tagged with the write's
id; a tick decodes the holding pair with `merge_int32_be`, re-encodes it with
`split_int32_be` and stores the two words into 0x2518, 0x2519, each inheriting
the origin of the holding word it came from. -/
def pStep : PEvent → PMirror → PMirror
  | .writeP id w4 w5, m => { m with hr_d004 := ⟨w4, id⟩, hr_d005 := ⟨w5, id⟩ }
  | .tickP, m =>
      let v := merge_int32_be m.hr_d004.val m.hr_d005.val
      { m with
        ir_2518 := ⟨(split_int32_be v).getD 0 0, m.hr_d004.origin⟩,
        ir_2519 := ⟨(split_int32_be v).getD 1 0, m.hr_d005.origin⟩ }

/-- Startup values: all four registers 0, tagged as initial. -/
def pInit : PMirror := ⟨⟨0, 0⟩, ⟨0, 0⟩, ⟨0, 0⟩, ⟨0, 0⟩⟩

/-- Run a finite interleaving of client writes and ticks. -/
def pRun : List PEvent → PMirror → PMirror
  | [], m => m
  | e :: es, m => pRun es (pStep e m)

/-- A well-formed event: a Modbus client can only write 16-bit words. -/
def PEvent.wordsOK : PEvent → Bool
  | .writeP _ w4 w5 =>
      decide (0 ≤ w4) && decide (w4 < 65536) && decide (0 ≤ w5) && decide (w5 < 65536)
  | .tickP => true

/-- Both holding words carry the same origin and are 16-bit, and both input
words carry the same origin. -/
def pCoherent (m : PMirror) : Prop :=
  m.hr_d004.origin = m.hr_d005.origin ∧
  0 ≤ m.hr_d004.val ∧ m.hr_d004.val < 65536 ∧
  0 ≤ m.hr_d005.val ∧ m.hr_d005.val < 65536 ∧
  m.ir_2518.origin = m.ir_2519.origin

lemma pStep_coherent (e : PEvent) (m : PMirror)
    (he : e.wordsOK = true) (hm : pCoherent m) : pCoherent (pStep e m) := by
  cases e with
  | writeP id w4 w5 =>
      simp only [PEvent.wordsOK, Bool.and_eq_true, decide_eq_true_eq] at he
      exact ⟨rfl, he.1.1.1, he.1.1.2, he.1.2, he.2, hm.2.2.2.2.2⟩
  | tickP =>
      exact ⟨hm.1, hm.2.1, hm.2.2.1, hm.2.2.2.1, hm.2.2.2.2.1, hm.1⟩

lemma pRun_coherent (es : List PEvent) (m : PMirror)
    (hes : ∀ e ∈ es, e.wordsOK = true) (hm : pCoherent m) : pCoherent (pRun es m) := by
  induction es generalizing m with
  | nil => exact hm
  | cons e es ih =>
      exact ih (pStep e m) (fun x hx => hes x (List.mem_cons_of_mem e hx))
        (pStep_coherent e m (hes e (List.mem_cons_self e es)) hm)

/-- C8. In every interleaving of (atomic) client writes to p_command with
synchronization ticks, the two words of the resulting p_measured pair always
carry the same origin — they never come from two different client writes — and
a tick run on a coherent state copies into p_measured exactly the word pair of
the single write currently held in p_command. -/
theorem C8_no_torn_mirror (es : List PEvent) (hes : ∀ e ∈ es, e.wordsOK = true) :
    (pRun es pInit).ir_2518.origin = (pRun es pInit).ir_2519.origin ∧
    (pRun es pInit).hr_d004.origin = (pRun es pInit).hr_d005.origin ∧
    (∀ m : PMirror, pCoherent m →
      (pStep .tickP m).ir_2518 = ⟨m.hr_d004.val, m.hr_d004.origin⟩ ∧
      (pStep .tickP m).ir_2519 = ⟨m.hr_d005.val, m.hr_d005.origin⟩) := by
  have hrun := pRun_coherent es pInit hes (by constructor <;> simp [pInit])
  refine ⟨hrun.2.2.2.2.2, hrun.1, fun m hm => ?_⟩
  have hsm := split_merge m.hr_d004.val m.hr_d005.val
    ⟨hm.2.1, hm.2.2.1⟩ ⟨hm.2.2.2.1, hm.2.2.2.2.1⟩
  constructor <;> simp [pStep, hsm]

/-- C8 witness: the spec's end-to-end scenario — the client writes the pair
(0xFFFF, 0xFFFF) (p_command = -1) as write number 1, then a tick runs. -/
theorem C8_no_torn_mirror_witness :
    (pRun [PEvent.writeP 1 0xFFFF 0xFFFF, PEvent.tickP] pInit).ir_2518.origin =
      (pRun [PEvent.writeP 1 0xFFFF 0xFFFF, PEvent.tickP] pInit).ir_2519.origin ∧
    (pRun [PEvent.writeP 1 0xFFFF 0xFFFF, PEvent.tickP] pInit).hr_d004.origin =
      (pRun [PEvent.writeP 1 0xFFFF 0xFFFF, PEvent.tickP] pInit).hr_d005.origin ∧
    (∀ m : PMirror, pCoherent m →
      (pStep .tickP m).ir_2518 = ⟨m.hr_d004.val, m.hr_d004.origin⟩ ∧
      (pStep .tickP m).ir_2519 = ⟨m.hr_d005.val, m.hr_d005.origin⟩) :=
  C8_no_torn_mirror [PEvent.writeP 1 0xFFFF 0xFFFF, PEvent.tickP] (by decide)

lemma clientWrite1_isOk_of_validate (s : ModbusSlaveContext) (fc a : Nat) (v : Int)
    (hv : (s.block fc).validate a 1 = true) : (clientWrite s fc a [v]).isOk := by
  have hv' : (s.block fc).validate a [v].length = true := hv
  simp [clientWrite, hv, hv', Except.isOk, Except.toBool]

/-- C10. The four banks are created as four datastore instances with the
identical declared set of 18 addresses and identical initial values; in
particular the holding bank declares the eight input-register table addresses
(readable and writable through holding-register function codes), the coil and
discrete-input banks declare every table address, and the synchronization loop
writes only the input bank, leaving holding, coil and discrete banks untouched. -/
theorem C10_four_identical_banks :
    bessAddrs.length = 18 ∧
    initContext.co = bessBlock ∧ initContext.di = bessBlock ∧
    initContext.hr = bessBlock ∧ initContext.ir = bessBlock ∧
    (∀ b ∈ [0x2502, 0x2503, 0x2504, 0x2505, 0x2518, 0x2519, 0x251a, 0x251b],
      b ∈ bessAddrs ∧ (initContext.hr b).isSome ∧
      (clientRead initContext 3 b 1).isOk ∧
      ∀ v : Int, (clientWrite initContext 3 b [v]).isOk) ∧
    (∀ b ∈ bessAddrs, (initContext.co b).isSome ∧ (initContext.di b).isSome) ∧
    (∀ t s s' w, tick t s = some (s', w) →
      s'.ctx.hr = s.ctx.hr ∧ s'.ctx.co = s.ctx.co ∧ s'.ctx.di = s.ctx.di) := by
  refine ⟨by decide, rfl, rfl, rfl, rfl, ?_, by decide,
    fun t s s' w h => tick_banks t s s' w h⟩
  intro b hb
  fin_cases hb <;>
    exact ⟨by decide, by decide, by decide,
      fun v => clientWrite1_isOk_of_validate initContext 3 _ v (by decide)⟩

/-- C10 witness: the declared register table has exactly 18 addresses. -/
theorem C10_four_identical_banks_witness : bessAddrs.length = 18 :=
  C10_four_identical_banks.1

/-- C7 witness: a two-iteration schedule whose first tick raises mid-body. -/
theorem C7_tick_errors_never_kill_loop_witness :
    (runUpdater [TickEnv.raised initSimState, TickEnv.normal 0]
      { sim := initSimState, ticksRun := 0, sleeps := 0, errorsLogged := 0 }).ticksRun =
      0 + 2 ∧
    (runUpdater [TickEnv.raised initSimState, TickEnv.normal 0]
      { sim := initSimState, ticksRun := 0, sleeps := 0, errorsLogged := 0 }).sleeps =
      0 + 2 ∧
    (∀ mid : SimState,
      (updaterStep (.raised mid)
        { sim := initSimState, ticksRun := 0, sleeps := 0, errorsLogged := 0 }).errorsLogged =
        0 + 1 ∧
      (updaterStep (.raised mid)
        { sim := initSimState, ticksRun := 0, sleeps := 0, errorsLogged := 0 }).sleeps =
        0 + 1 ∧
      (updaterStep (.raised mid)
        { sim := initSimState, ticksRun := 0, sleeps := 0, errorsLogged := 0 }).ticksRun =
        0 + 1) :=
  C7_tick_errors_never_kill_loop [TickEnv.raised initSimState, TickEnv.normal 0]
    { sim := initSimState, ticksRun := 0, sleeps := 0, errorsLogged := 0 }

end BessServer
